import Mathlib

/-!
Shallow embedding of the scoring_apis repository's data-acquisition and
score-normalization core: the five score calculators, the traffic job
polling loop, the dispatch pipeline's error handling, and the database
connection-pool lifecycle.

Python floats are modelled as exact rationals (`ℚ`); Python's `round`
(banker's rounding to a number of decimal places) is `roundTo`; a Python
division that can raise `ZeroDivisionError` is modelled by the
`Option`-valued `pydiv`, and a function whose body contains such a division
is `Option`-valued (`none` models the raised exception).  Numeric string
rendering inside explanation texts uses `toString` on `ℚ`, abstracting
Python's float formatting.
-/

/-- Python's `round` to the nearest integer: round-half-to-even. -/
def pyRound (q : ℚ) : ℤ :=
  let f := ⌊q⌋
  let r := q - (f : ℚ)
  if r < 1 / 2 then f
  else if 1 / 2 < r then f + 1
  else if f % 2 = 0 then f else f + 1

/-- Python's `round(x, k)`: round to `k` decimal places, half to even. -/
def roundTo (k : ℕ) (q : ℚ) : ℚ := (pyRound (q * (10 ^ k : ℚ)) : ℚ) / (10 ^ k : ℚ)

/-- Python division `a / b`: raises `ZeroDivisionError` (`none`) when `b = 0`. -/
def pydiv (a b : ℚ) : Option ℚ := if b = 0 then none else some (a / b)

/-- Sum of a list of rationals (models Python's `sum`). -/
def qsum (l : List ℚ) : ℚ := l.foldl (fun a b => a + b) 0

namespace Income

/-- One row of `schema_marketplace.area_income_all_features_v12` as fetched by
`fetch_income_data_from_db` (src/scoring_algorithms/income.py): nullable
numeric columns are `Option ℚ`. -/
structure IncomeRow where
  income : Option ℚ
  low_income_score : Option ℚ
  medium_income_score : Option ℚ
  high_income_score : Option ℚ
deriving DecidableEq

/-- The `income_distribution` sub-dictionary of the income result. -/
structure IncomeDistribution where
  low_score : ℚ
  medium_score : ℚ
  high_score : ℚ
deriving DecidableEq

/-- The dictionary returned by `calculate_score_from_income_results`. -/
structure IncomeResult where
  score : ℚ
  target_income_level : String
  areas_analyzed : ℕ
  avg_income : ℚ
  income_distribution : IncomeDistribution
deriving DecidableEq

/-- The list comprehension `[row[c] for row in results if row.get(c) is not None]`
for a nullable column `c`. -/
def collectScores (col : IncomeRow → Option ℚ) (results : List IncomeRow) : List ℚ :=
  results.filterMap col

/-- `sum(xs) / len(xs) if xs else 0` (guarded average used throughout
`calculate_score_from_income_results`). -/
def avgOrZero (xs : List ℚ) : ℚ :=
  if xs = [] then 0 else qsum xs / (xs.length : ℚ)

/-- Embeds `calculate_score_from_income_results`
(src/scoring_algorithms/income.py, lines 79-151).  Every division in the
source is guarded by a non-emptiness check, so the function is total. -/
def calculate_score_from_income_results
    (results : List IncomeRow) (target_income_level : String) : IncomeResult :=
  let areas_analyzed := results.length
  let target_scores :=
    if target_income_level = "low" then
      collectScores (fun r => r.low_income_score) results
    else if target_income_level = "medium" then
      collectScores (fun r => r.medium_income_score) results
    else
      collectScores (fun r => r.high_income_score) results
  let final_score := avgOrZero target_scores
  let incomes := collectScores (fun r => r.income) results
  let avg_income := avgOrZero incomes
  let low_scores := collectScores (fun r => r.low_income_score) results
  let medium_scores := collectScores (fun r => r.medium_income_score) results
  let high_scores := collectScores (fun r => r.high_income_score) results
  let income_distribution : IncomeDistribution :=
    { low_score := if low_scores = [] then 0 else roundTo 2 (avgOrZero low_scores)
      medium_score := if medium_scores = [] then 0 else roundTo 2 (avgOrZero medium_scores)
      high_score := if high_scores = [] then 0 else roundTo 2 (avgOrZero high_scores) }
  { score := roundTo 2 final_score
    target_income_level := target_income_level
    areas_analyzed := areas_analyzed
    avg_income := roundTo 2 avg_income
    income_distribution := income_distribution }

end Income

/-- A business record returned by the external dataset API: only its `types`
list matters to the scorers.  `none` models an absent `types` key; `some []`
an empty list (both are falsy in the Python guard). -/
structure Business where
  types : Option (List String)
deriving DecidableEq

/-- `business.get("types", ["unknown"])[0] if business.get("types") else "unknown"`. -/
def categoryOf (b : Business) : String :=
  match b.types with
  | some (t :: _) => t
  | _ => "unknown"

/-- Increment the count of `cat` in an insertion-ordered association list
(models one `category_counts[category] = category_counts.get(category, 0) + 1`
step on a Python dict). -/
def bumpCategory (cat : String) : List (String × ℕ) → List (String × ℕ)
  | [] => [(cat, 1)]
  | (c, n) :: rest =>
    if c = cat then (c, n + 1) :: rest else (c, n) :: bumpCategory cat rest

/-- The `category_counts` dict built by the grouping loop shared by the
competition and complementary scorers. -/
def categoryCounts (data : List Business) : List (String × ℕ) :=
  data.foldl (fun acc b => bumpCategory (categoryOf b) acc) []

/-- Stable insertion into a list sorted descending by count (ties keep the
earlier element first, as Python's stable `sorted` does). -/
def insertDescByCount (p : String × ℕ) : List (String × ℕ) → List (String × ℕ)
  | [] => [p]
  | q :: rest => if q.2 ≤ p.2 then p :: q :: rest else q :: insertDescByCount p rest

/-- `sorted(category_counts.items(), key=lambda x: x[1], reverse=True)`. -/
def sortDescByCount (l : List (String × ℕ)) : List (String × ℕ) :=
  l.foldr insertDescByCount []

/-- `", ".join(f"{cat}: {count}" for cat, count in top_categories)` over the
three largest categories. -/
def topCatDesc (cats : List (String × ℕ)) : String :=
  String.intercalate ", "
    (((sortDescByCount cats).take 3).map (fun p => p.1 ++ ": " ++ toString p.2))

/-- The dictionary returned by both competition scorers. -/
structure CompetitionResult where
  score : ℚ
  total_competitors : ℕ
  category_breakdown : List (String × ℕ)
  competition_density : ℚ
  competition_factor : ℚ
  category_factor : ℚ
  explanation : String
deriving DecidableEq

namespace Competition

/-- Embeds `calculate_score_from_competition_data`
(src/scoring_algorithms/competition.py, lines 106-194).  The only division
whose denominator is caller-controlled is `avg_per_category /
target_num_per_category`, hence the `Option` result (`none` models the
`ZeroDivisionError` raised when `target_num_per_category == 0` and the data
is non-empty). -/
def calculate_score_from_competition_data
    (competition_data : List Business) (target_num_per_category : ℤ) :
    Option CompetitionResult :=
  let total_competitors := competition_data.length
  let category_counts := categoryCounts competition_data
  if total_competitors = 0 then
    some { score := 100
           total_competitors := 0
           category_breakdown := []
           competition_density := 0
           competition_factor := 1
           category_factor := 1
           explanation := "Perfect score: No competitors found in the area" }
  else
    let competition_density : ℚ := (total_competitors : ℚ) / 1000
    let competition_factor : ℚ := max 0 (1 - competition_density / 10)
    let avg_per_category : ℚ :=
      if category_counts = [] then 0
      else (total_competitors : ℚ) / (category_counts.length : ℚ)
    (pydiv avg_per_category (target_num_per_category : ℚ)).map (fun r =>
      let category_factor : ℚ := max 0 (1 - r)
      let final_score := (competition_factor * 0.7 + category_factor * 0.3) * 100
      let competition_level :=
        if (0.7 : ℚ) < competition_factor then "low"
        else if (0.4 : ℚ) < competition_factor then "moderate" else "high"
      let category_distribution :=
        if (0.6 : ℚ) < category_factor then "well-distributed"
        else if (0.3 : ℚ) < category_factor then "concentrated" else "oversaturated"
      let top_cat_desc := topCatDesc category_counts
      { score := roundTo 4 final_score
        total_competitors := total_competitors
        category_breakdown := category_counts
        competition_density := roundTo 4 competition_density
        competition_factor := roundTo 4 competition_factor
        category_factor := roundTo 4 category_factor
        explanation :=
          "Score " ++ toString (roundTo 4 final_score) ++ " indicates " ++
          competition_level ++ " competition (" ++ toString total_competitors ++
          " competitors). Competition is " ++ category_distribution ++
          " across categories. Top categories: " ++ top_cat_desc })

end Competition

namespace CompetitionLogic

/-- Embeds `calculate_score_from_competition_data`
(src/routers/competition/logic.py, lines 92-164).  Identical to the
scoring_algorithms variant except that the zero-competitor branch returns
score `1.0` instead of `100.0`. -/
def calculate_score_from_competition_data
    (competition_data : List Business) (target_num_per_category : ℤ) :
    Option CompetitionResult :=
  let total_competitors := competition_data.length
  let category_counts := categoryCounts competition_data
  if total_competitors = 0 then
    some { score := 1
           total_competitors := 0
           category_breakdown := []
           competition_density := 0
           competition_factor := 1
           category_factor := 1
           explanation := "Perfect score: No competitors found in the area" }
  else
    let competition_density : ℚ := (total_competitors : ℚ) / 1000
    let competition_factor : ℚ := max 0 (1 - competition_density / 10)
    let avg_per_category : ℚ :=
      if category_counts = [] then 0
      else (total_competitors : ℚ) / (category_counts.length : ℚ)
    (pydiv avg_per_category (target_num_per_category : ℚ)).map (fun r =>
      let category_factor : ℚ := max 0 (1 - r)
      let final_score := (competition_factor * 0.7 + category_factor * 0.3) * 100
      let competition_level :=
        if (0.7 : ℚ) < competition_factor then "low"
        else if (0.4 : ℚ) < competition_factor then "moderate" else "high"
      let category_distribution :=
        if (0.6 : ℚ) < category_factor then "well-distributed"
        else if (0.3 : ℚ) < category_factor then "concentrated" else "oversaturated"
      let top_cat_desc := topCatDesc category_counts
      { score := roundTo 4 final_score
        total_competitors := total_competitors
        category_breakdown := category_counts
        competition_density := roundTo 4 competition_density
        competition_factor := roundTo 4 competition_factor
        category_factor := roundTo 4 category_factor
        explanation :=
          "Score " ++ toString (roundTo 4 final_score) ++ " indicates " ++
          competition_level ++ " competition (" ++ toString total_competitors ++
          " competitors). Competition is " ++ category_distribution ++
          " across categories. Top categories: " ++ top_cat_desc })

end CompetitionLogic

/-- The dictionary returned by `calculate_score_from_complementary_data`. -/
structure ComplementaryResult where
  score : ℚ
  total_complementary : ℕ
  category_breakdown : List (String × ℕ)
  complementary_density : ℚ
  density_factor : ℚ
  coverage_factor : ℚ
  balance_factor : ℚ
  explanation : String
deriving DecidableEq

namespace Complementary

/-- Embeds `calculate_score_from_complementary_data`
(src/scoring_algorithms/complementary.py, lines 106-211).  As in the
competition scorer, only the division by `target_num_per_category` can
raise, hence the `Option` result. -/
def calculate_score_from_complementary_data
    (complementary_data : List Business) (target_num_per_category : ℤ) :
    Option ComplementaryResult :=
  let total_complementary := complementary_data.length
  let category_counts := categoryCounts complementary_data
  if total_complementary = 0 then
    some { score := 0
           total_complementary := 0
           category_breakdown := []
           complementary_density := 0
           density_factor := 0
           coverage_factor := 0
           balance_factor := 0
           explanation := "Low score: No complementary businesses found in the area" }
  else
    let complementary_density : ℚ := (total_complementary : ℚ) / 1000
    let density_factor : ℚ := min 1 (complementary_density / 5)
    let target_categories := category_counts.length
    let coverage_factor : ℚ := min 1 ((target_categories : ℚ) / 5)
    let balance_factor? : Option ℚ :=
      if 0 < target_categories then
        let avg_per_category : ℚ := (total_complementary : ℚ) / (target_categories : ℚ)
        (pydiv avg_per_category (target_num_per_category : ℚ)).map (fun r => min 1 r)
      else some 0
    balance_factor?.map (fun balance_factor =>
      let final_score :=
        (density_factor * 0.4 + coverage_factor * 0.3 + balance_factor * 0.3) * 100
      let density_quality :=
        if (0.7 : ℚ) < density_factor then "high"
        else if (0.4 : ℚ) < density_factor then "moderate" else "low"
      let coverage_quality :=
        if (0.8 : ℚ) < coverage_factor then "excellent"
        else if (0.6 : ℚ) < coverage_factor then "good" else "limited"
      let balance_quality :=
        if (0.7 : ℚ) < balance_factor then "well-balanced"
        else if (0.4 : ℚ) < balance_factor then "adequate" else "uneven"
      let top_cat_desc := topCatDesc category_counts
      { score := roundTo 4 final_score
        total_complementary := total_complementary
        category_breakdown := category_counts
        complementary_density := roundTo 4 complementary_density
        density_factor := roundTo 4 density_factor
        coverage_factor := roundTo 4 coverage_factor
        balance_factor := roundTo 4 balance_factor
        explanation :=
          "Score " ++ toString (roundTo 4 final_score) ++ " based on " ++
          toString total_complementary ++ " complementary businesses. " ++
          density_quality ++ " density, " ++ coverage_quality ++
          " category coverage (" ++ toString target_categories ++ " categories), " ++
          balance_quality ++ " distribution. Top categories: " ++ top_cat_desc })

end Complementary

/-- Python `int(x)` on a rational: truncation toward zero. -/
def pyInt (q : ℚ) : ℤ := q.num / (q.den : ℤ)

/-- One row of `schema_marketplace.population_all_features_v12` as consumed by
the demographics scorers; nullable numeric columns are `Option ℚ`
(`(row["X"] or 0)` / `(row.get("X") or 0)` both read as `getD 0`). -/
structure DemographicsRow where
  Population_Count : Option ℚ
  Male_Population : Option ℚ
  Female_Population : Option ℚ
  Population_Density_KM2 : Option ℚ
  Median_Age_Total : Option ℚ
  Median_Age_Male : Option ℚ
  Median_Age_Female : Option ℚ
deriving DecidableEq

/-- An all-null population row. -/
def nullRow : DemographicsRow := ⟨none, none, none, none, none, none, none⟩

/-- The dictionary returned by the demographics scorers. -/
structure DemographicsResult where
  score : ℚ
  target_population : ℤ
  weighted_median_age : ℚ
  avg_density : ℚ
  age_proximity_factor : ℚ
  density_factor : ℚ
  population_factor : ℚ
  explanation : String
deriving DecidableEq

/-- `sum((row.get("Male_Population") or 0) for row in results)`. -/
def malePopSum (results : List DemographicsRow) : ℚ :=
  qsum (results.map (fun r => r.Male_Population.getD 0))

/-- `sum((row.get("Median_Age_Male") or 0) * (row.get("Male_Population") or 0) ...)`. -/
def maleAgeWeightedSum (results : List DemographicsRow) : ℚ :=
  qsum (results.map (fun r => (r.Median_Age_Male.getD 0) * (r.Male_Population.getD 0)))

/-- `sum((row.get("Female_Population") or 0) for row in results)`. -/
def femalePopSum (results : List DemographicsRow) : ℚ :=
  qsum (results.map (fun r => r.Female_Population.getD 0))

/-- `sum((row.get("Median_Age_Female") or 0) * (row.get("Female_Population") or 0) ...)`. -/
def femaleAgeWeightedSum (results : List DemographicsRow) : ℚ :=
  qsum (results.map (fun r => (r.Median_Age_Female.getD 0) * (r.Female_Population.getD 0)))

/-- `sum((row.get("Population_Count") or 0) for row in results)`. -/
def totalPopSum (results : List DemographicsRow) : ℚ :=
  qsum (results.map (fun r => r.Population_Count.getD 0))

/-- `sum((row.get("Median_Age_Total") or 0) * (row.get("Population_Count") or 0) ...)`. -/
def totalAgeWeightedSum (results : List DemographicsRow) : ℚ :=
  qsum (results.map (fun r => (r.Median_Age_Total.getD 0) * (r.Population_Count.getD 0)))

/-- `sum((row.get("Population_Density_KM2") or 0) for row in results)`. -/
def densitySum (results : List DemographicsRow) : ℚ :=
  qsum (results.map (fun r => r.Population_Density_KM2.getD 0))

namespace Demographics

/-- Embeds `calculate_score_from_demographics_results`
(src/scoring_algorithms/demographics.py, lines 91-214).  Every division in
this variant is guarded (`if target_population > 0 else 0`,
`if results else 0`), so the function is total — this is the "never raises"
behavior.  `math.log10` is an abstract parameter `log10` (only its value at
arguments reached by a claim matters). -/
def calculate_score_from_demographics_results (log10 : ℚ → ℚ)
    (results : List DemographicsRow) (target_age : ℤ)
    (sex_preference : Option String) : DemographicsResult :=
  let triple :
      ℚ × ℚ × String :=
    if sex_preference = some "male" then
      let target_population := malePopSum results
      ⟨target_population,
       if 0 < target_population then maleAgeWeightedSum results / target_population else 0,
       "male population"⟩
    else if sex_preference = some "female" then
      let target_population := femalePopSum results
      ⟨target_population,
       if 0 < target_population then femaleAgeWeightedSum results / target_population else 0,
       "female population"⟩
    else
      let target_population := totalPopSum results
      ⟨target_population,
       if 0 < target_population then totalAgeWeightedSum results / target_population else 0,
       "total population"⟩
  let target_population := triple.1
  let weighted_median_age := triple.2.1
  let sex_desc := triple.2.2
  let avg_density := if results = [] then 0 else densitySum results / (results.length : ℚ)
  let age_diff := |weighted_median_age - (target_age : ℚ)|
  let age_proximity_factor := max 0 (1 - age_diff / 30)
  let density_factor := min 1 (avg_density / 1000)
  let population_factor := min 1 (log10 (target_population + 1) / 6)
  let final_score :=
    (age_proximity_factor * 0.5 + density_factor * 0.3 + population_factor * 0.2) * 100
  let age_quality :=
    if (0.8 : ℚ) < age_proximity_factor then "excellent"
    else if (0.6 : ℚ) < age_proximity_factor then "good"
    else if (0.3 : ℚ) < age_proximity_factor then "moderate" else "poor"
  let density_quality :=
    if (0.7 : ℚ) < density_factor then "high"
    else if (0.4 : ℚ) < density_factor then "moderate" else "low"
  let size_quality :=
    if (0.7 : ℚ) < population_factor then "large"
    else if (0.4 : ℚ) < population_factor then "medium" else "small"
  { score := roundTo 4 final_score
    target_population := pyInt target_population
    weighted_median_age := roundTo 2 weighted_median_age
    avg_density := roundTo 2 avg_density
    age_proximity_factor := roundTo 4 age_proximity_factor
    density_factor := roundTo 4 density_factor
    population_factor := roundTo 4 population_factor
    explanation :=
      "Score " ++ toString (roundTo 4 final_score) ++ " based on " ++ sex_desc ++
      ": " ++ age_quality ++ " age match (median " ++
      toString (roundTo 1 weighted_median_age) ++ " vs target " ++
      toString target_age ++ "), " ++ density_quality ++ " density (" ++
      toString (roundTo 1 avg_density) ++ "/km²), " ++ size_quality ++
      " population size (" ++ toString (pyInt target_population) ++ " people)" }

end Demographics

namespace DemographicsLogic

/-- Embeds `calculate_score_from_results`
(src/routers/demographics/logic.py, lines 30-128).  Unlike the
scoring_algorithms variant, the weighted-age division and the
`avg_density` division are UNGUARDED in this source: a zero population sum
(in particular an empty `results` list) raises `ZeroDivisionError`, modelled
as `none`. -/
def calculate_score_from_results (log10 : ℚ → ℚ)
    (results : List DemographicsRow) (target_age : ℤ)
    (sex_preference : Option String) : Option DemographicsResult :=
  let triple? : Option (ℚ × ℚ × String) :=
    if sex_preference = some "male" then
      (pydiv (maleAgeWeightedSum results) (malePopSum results)).map
        (fun w => (malePopSum results, w, "male population"))
    else if sex_preference = some "female" then
      (pydiv (femaleAgeWeightedSum results) (femalePopSum results)).map
        (fun w => (femalePopSum results, w, "female population"))
    else
      (pydiv (totalAgeWeightedSum results) (totalPopSum results)).map
        (fun w => (totalPopSum results, w, "total population"))
  match triple?, pydiv (densitySum results) ((results.length : ℚ)) with
  | none, _ => none
  | _, none => none
  | some triple, some avg_density =>
  let target_population := triple.1
  let weighted_median_age := triple.2.1
  let sex_desc := triple.2.2
  let age_diff := |weighted_median_age - (target_age : ℚ)|
  let age_proximity_factor := max 0 (1 - age_diff / 30)
  let density_factor := min 1 (avg_density / 1000)
  let population_factor := min 1 (log10 (target_population + 1) / 6)
  let final_score :=
    (age_proximity_factor * 0.5 + density_factor * 0.3 + population_factor * 0.2) * 100
  let age_quality :=
    if (0.8 : ℚ) < age_proximity_factor then "excellent"
    else if (0.6 : ℚ) < age_proximity_factor then "good"
    else if (0.3 : ℚ) < age_proximity_factor then "moderate" else "poor"
  let density_quality :=
    if (0.7 : ℚ) < density_factor then "high"
    else if (0.4 : ℚ) < density_factor then "moderate" else "low"
  let size_quality :=
    if (0.7 : ℚ) < population_factor then "large"
    else if (0.4 : ℚ) < population_factor then "medium" else "small"
  some
    { score := roundTo 4 final_score
      target_population := pyInt target_population
      weighted_median_age := roundTo 2 weighted_median_age
      avg_density := roundTo 2 avg_density
      age_proximity_factor := roundTo 4 age_proximity_factor
      density_factor := roundTo 4 density_factor
      population_factor := roundTo 4 population_factor
      explanation :=
        "Score " ++ toString (roundTo 4 final_score) ++ " based on " ++ sex_desc ++
        ": " ++ age_quality ++ " age match (median " ++
        toString (roundTo 1 weighted_median_age) ++ " vs target " ++
        toString target_age ++ "), " ++ density_quality ++ " density (" ++
        toString (roundTo 1 avg_density) ++ "/km²), " ++ size_quality ++
        " population size (" ++ toString (pyInt target_population) ++ " people)" }

end DemographicsLogic

namespace Traffic

/-- One element of the `results` list inside a traffic job payload
(`GET /job/{id}` → `{status, result:{results:[...]}}`).  Absent keys are
`none`; the Python code reads them with `.get(key, default)`. -/
structure TrafficResultItem where
  error : Option String
  score : Option ℚ
  storefront_score : Option ℚ
  area_score : Option ℚ
  screenshot_url : Option String
deriving DecidableEq

/-- The `result` sub-object of a job payload. -/
structure JobResultPayload where
  results : Option (List TrafficResultItem)
deriving DecidableEq

/-- A job-status response body: `{status, result?, error?}`. -/
structure JobData where
  status : String
  error : Option String
  result : Option JobResultPayload
deriving DecidableEq

/-- Terminal outcome of the polling loop.  `timedOut` models the
`Exception(f"Traffic analysis job {job_id} timed out after {max_attempts}
attempts")` (the spec's JobTimeoutError), carrying the job id and the
attempt ceiling named in that message; `terminated` models the
`Exception(f"Traffic analysis job {status}: {error_msg}")` (the spec's
JobTerminatedError). -/
inductive PollOutcome where
  | done (payload : JobData)
  | terminated (status : String) (error_msg : String)
  | timedOut (job_id : String) (attempts : ℕ)
deriving DecidableEq

/-- The body of the `while attempt < max_attempts` loop of
`poll_job_status`, with `service i` the response to the `i`-th GET
(1-indexed) and `fuel = max_attempts - attempt` the remaining iterations.
Returns the outcome together with the number of status requests issued
from this point on; the 5-second sleeps are elided (they do not affect the
request count or the outcome). -/
def pollAux (service : ℕ → JobData) (job_id : String) (max_attempts : ℕ) :
    ℕ → ℕ → PollOutcome × ℕ
  | 0, _ => (PollOutcome.timedOut job_id max_attempts, 0)
  | fuel + 1, attempt =>
    let a := attempt + 1
    let job_data := service a
    let status := job_data.status
    if status = "done" then (PollOutcome.done job_data, 1)
    else if status = "failed" ∨ status = "canceled" then
      (PollOutcome.terminated status (job_data.error.getD "Unknown error"), 1)
    else
      let rest := pollAux service job_id max_attempts fuel a
      (rest.1, rest.2 + 1)

/-- Embeds `poll_job_status` (src/scoring_algorithms/traffic.py, lines
113-161, and src/routers/traffic/logic.py, lines 90-130 — the two loops
are line-for-line identical in logic; the router variant fixes
`max_attempts = 60`). -/
def poll_job_status (service : ℕ → JobData) (job_id : String)
    (max_attempts : ℕ) : PollOutcome × ℕ :=
  pollAux service job_id max_attempts max_attempts 0

/-- `job_result.get("result", {}).get("results", [])`. -/
def resultsData (job_result : JobData) : List TrafficResultItem :=
  match job_result.result with
  | none => []
  | some p => p.results.getD []

/-- The dictionary returned by `format_traffic_results`.  `analysis_date`
comes from `datetime.now()`, passed in as the abstract parameter `now`. -/
structure TrafficScoreResult where
  score : ℚ
  storefront_score : ℚ
  area_score : ℚ
  screenshot_filename : String
  analysis_date : String
  explanation : String
deriving DecidableEq

/-- Embeds `format_traffic_results` (src/scoring_algorithms/traffic.py,
lines 164-248, and src/routers/traffic/logic.py, lines 133-207 — identical
logic; the router variant reads `storefront_direction`, `day`, `time` from
the request object).  `result.get("error")` truthiness: `None` and the
empty string are both falsy, so `error.getD "" = ""` is the no-error
test. -/
def format_traffic_results (now : String) (job_result : JobData)
    (storefront_direction day time : String) : TrafficScoreResult :=
  let results_data := resultsData job_result
  match results_data with
  | [] =>
    { score := 0
      storefront_score := 0
      area_score := 0
      screenshot_filename := ""
      analysis_date := now
      explanation := "No traffic analysis data available" }
  | result :: _ =>
    let err := result.error.getD ""
    if err = "" then
      let traffic_score := result.score.getD 0
      let storefront_score := result.storefront_score.getD 0
      let area_score := result.area_score.getD 0
      let screenshot_url := result.screenshot_url.getD ""
      let screenshot_filename :=
        if screenshot_url = "" then "" else (screenshot_url.splitOn "/").getLastD ""
      let score_quality :=
        if (80 : ℚ) ≤ traffic_score then "excellent"
        else if (60 : ℚ) ≤ traffic_score then "good"
        else if (40 : ℚ) ≤ traffic_score then "moderate"
        else if (20 : ℚ) ≤ traffic_score then "below average" else "poor"
      let storefront_quality :=
        if (70 : ℚ) ≤ storefront_score then "high"
        else if (40 : ℚ) ≤ storefront_score then "moderate" else "low"
      let area_quality :=
        if (70 : ℚ) ≤ area_score then "busy"
        else if (40 : ℚ) ≤ area_score then "moderate" else "quiet"
      { score := traffic_score
        storefront_score := storefront_score
        area_score := area_score
        screenshot_filename := screenshot_filename
        analysis_date := now
        explanation :=
          "Overall traffic score " ++ toString traffic_score ++ " indicates " ++
          score_quality ++ " traffic conditions. Storefront visibility: " ++
          storefront_quality ++ " (" ++ toString storefront_score ++
          "), Area activity: " ++ area_quality ++ " (" ++ toString area_score ++
          "). Analysis for " ++ storefront_direction ++
          "-facing storefront on " ++ day ++ " at " ++ time }
    else
      { score := 0
        storefront_score := 0
        area_score := 0
        screenshot_filename := ""
        analysis_date := now
        explanation := "Traffic analysis failed: " ++ err }

end Traffic

namespace Dispatch

/-- The `detail` payload of an HTTPException: a plain string (500 wrapping)
or the structured 422 validation body `{"message": ..., "errors": [...]}`. -/
inductive HttpDetail where
  | text (s : String)
  | validationDetail (message : String) (errors : List String)
deriving DecidableEq

/-- A Python exception as seen by `request_handling`: either the pipeline's
own structured error type (`HTTPException`) or any other exception,
identified by its message `str(e)`. -/
inductive PyExc where
  | httpException (status_code : ℕ) (detail : HttpDetail)
  | otherExc (msg : String)
deriving DecidableEq

/-- The dynamically-typed `output` variable of `request_handling`: the
initial default `""`, a domain result, or the envelope built when
`wrap_output` is set. -/
inductive Output (α : Type) where
  | empty
  | plain (a : α)
  | wrapped (data : Output α) (message : String) (request_id : String)
deriving DecidableEq

/-- The `if req and input_type: input_type.model_validate(req) ...` block
(src/request_processor.py, lines 28-40).  `input_validate r = some errs`
models `model_validate` raising `ValidationError` with error list `errs`
(`none` models passing; an absent `input_type` is the outer `none`). -/
def validationStep {ρ : Type} (req : Option ρ)
    (input_validate : Option (ρ → Option (List String))) : Except PyExc Unit :=
  match req, input_validate with
  | some r, some validate =>
    match validate r with
    | some validation_errors =>
      Except.error (PyExc.httpException 422
        (HttpDetail.validationDetail "Validation failed" validation_errors))
    | none => Except.ok ()
  | _, _ => Except.ok ()

/-- The `try: output = await custom_function(...) except ...` block
(src/request_processor.py, lines 42-56): an `HTTPException` re-raises
unchanged, any other exception is wrapped into a 500 `HTTPException`
carrying the original message. -/
def invokeStep {ρ α : Type} (req : Option ρ)
    (custom_function : Option (Option ρ → Except PyExc α)) :
    Except PyExc (Output α) :=
  match custom_function with
  | none => Except.ok Output.empty
  | some f =>
    match f req with
    | Except.ok a => Except.ok (Output.plain a)
    | Except.error (PyExc.httpException s d) => Except.error (PyExc.httpException s d)
    | Except.error (PyExc.otherExc m) =>
      Except.error (PyExc.httpException 500
        (HttpDetail.text ("An unexpected error occurred: " ++ m)))

/-- Embeds `request_handling` (src/request_processor.py, lines 19-65):
validation, domain-function invocation with error normalization, optional
envelope wrapping, optional output coercion.  `custom_function` receives
`req` itself, covering the `if req: f(req=req) else f()` split;
`fresh_uuid` is the `uuid.uuid4()` draw; `output_coerce` abstracts the
final `output_type(**output)` construction (its own possible validation
failure is outside this model). -/
def request_handling {ρ α : Type}
    (req : Option ρ)
    (input_validate : Option (ρ → Option (List String)))
    (custom_function : Option (Option ρ → Except PyExc α))
    (output_coerce : Option (Output α → Output α))
    (wrap_output : Bool) (fresh_uuid : String) : Except PyExc (Output α) :=
  match validationStep req input_validate with
  | Except.error e => Except.error e
  | Except.ok _ =>
    match invokeStep req custom_function with
    | Except.error e => Except.error e
    | Except.ok output1 =>
      let output2 :=
        if wrap_output then
          Output.wrapped output1 "Request received." ("req-" ++ fresh_uuid)
        else output1
      Except.ok (match output_coerce with
                 | some coerce => coerce output2
                 | none => output2)

end Dispatch

namespace Pool

/-- The class-level mutable state of `Database` (src/database.py): the
current pool handle (pool objects are identified by the natural number
drawn from `next_pool_id` at creation), the last refresh timestamp, and the
set of pools that have been closed. -/
structure PoolState where
  pool : Option ℕ
  last_refresh_time : ℚ
  next_pool_id : ℕ
  closed_pools : List ℕ
deriving DecidableEq

/-- `cls.refresh_interval = 3600`. -/
def refresh_interval : ℚ := 3600

/-- Primitive lifecycle events, in the order they are performed. -/
inductive PoolEvent where
  | created (pid : ℕ)
  | closedPool (pid : ℕ)
deriving DecidableEq

/-- Embeds `Database.create_pool` (src/database.py, lines 24-33): makes a
fresh pool, assigns it to the shared reference and stamps the refresh
time. -/
def create_pool (s : PoolState) (now : ℚ) : PoolState × List PoolEvent :=
  let pid := s.next_pool_id
  (⟨some pid, now, pid + 1, s.closed_pools⟩, [PoolEvent.created pid])

/-- `await old_pool.close()`: marks a pool closed; does not touch the
shared reference. -/
def closePool (s : PoolState) (pid : ℕ) : PoolState :=
  ⟨s.pool, s.last_refresh_time, s.next_pool_id, pid :: s.closed_pools⟩

/-- Embeds `Database.refresh_pool` (src/database.py, lines 62-71):
`old_pool = cls.pool`, then `create_pool` (which swaps the shared
reference), then `old_pool.close()`.  `old_pid` is the current pool —
`refresh_pool` is only invoked by `get_pool` when one exists.  Returns the
final state, the event list in execution order, and the intermediate
states after each primitive mutation. -/
def refresh_pool (s : PoolState) (old_pid : ℕ) (now : ℚ) :
    PoolState × List PoolEvent × List PoolState :=
  let created := create_pool s now
  let s2 := closePool created.1 old_pid
  (s2, created.2 ++ [PoolEvent.closedPool old_pid], [created.1, s2])

/-- Embeds `Database.get_pool` (src/database.py, lines 45-60): create the
pool lazily if absent; refresh it if older than `refresh_interval`;
otherwise leave it alone.  The Python method returns `cls.pool`, i.e. the
`pool` field of the returned final state. -/
def get_pool (s : PoolState) (now : ℚ) :
    PoolState × List PoolEvent × List PoolState :=
  match s.pool with
  | none =>
    let created := create_pool s now
    (created.1, created.2, [created.1])
  | some old_pid =>
    if refresh_interval < now - s.last_refresh_time then
      refresh_pool s old_pid now
    else (s, [], [])

/-- A state whose shared reference holds a pool that has not been closed. -/
def livePool (s : PoolState) : Prop :=
  ∃ p, s.pool = some p ∧ p ∉ s.closed_pools

/-- Well-formedness: pool ids in use are below the id generator, and the
referenced pool is live. -/
def PoolWF (s : PoolState) : Prop :=
  (∀ c ∈ s.closed_pools, c < s.next_pool_id) ∧
  (∀ p, s.pool = some p → p < s.next_pool_id ∧ p ∉ s.closed_pools)

end Pool

/-! Concrete inputs used by witnesses, counterexamples and golden values. -/

/-- A status response with status `"running"` and no other fields. -/
def runningJob : Traffic.JobData := ⟨"running", none, none⟩

/-- A status response with status `"pending"` and no other fields. -/
def pendingJob : Traffic.JobData := ⟨"pending", none, none⟩

/-- A status response with status `"done"` and no other fields. -/
def doneJob : Traffic.JobData := ⟨"done", none, none⟩

/-- A mock service: `"running"` on the first two polls, then `"done"`. -/
def svcRunThenDone : ℕ → Traffic.JobData :=
  fun i => if i ≤ 2 then runningJob else doneJob

/-- A mock service that never leaves `"pending"`. -/
def svcAlwaysPending : ℕ → Traffic.JobData := fun _ => pendingJob

/-- Ten competitors split across two categories (5 cafes, 5 bakeries):
the golden-value input of the spec's §8 competition test. -/
def goldenCompetitors : List Business :=
  List.replicate 5 ⟨some ["cafe"]⟩ ++ List.replicate 5 ⟨some ["bakery"]⟩

/-- A single competitor in one category. -/
def soloCompetitor : List Business := [⟨some ["cafe"]⟩]

/-- A population row with 2 men of median age 30 and nothing else. -/
def maleRow : DemographicsRow := ⟨none, some 2, none, none, none, some 30, none⟩

/-- A populated row whose male population is zero. -/
def zeroMaleRow : DemographicsRow :=
  ⟨some 5, some 0, none, some 100, some 40, some 35, none⟩

/-- An income row whose low-income score is 10 and all else null. -/
def lowTenRow : Income.IncomeRow := ⟨none, some 10, none, none⟩

/-- An income row with every column null. -/
def nullIncomeRow : Income.IncomeRow := ⟨none, none, none, none⟩

/-- A traffic result item carrying an `error` field. -/
def errorItem : Traffic.TrafficResultItem := ⟨some "boom", none, none, none, none⟩

/-- A job payload whose first result carries an `error` field. -/
def errorJobPayload : Traffic.JobData := ⟨"done", none, some ⟨some [errorItem]⟩⟩

/-- A successful traffic result item. -/
def okItem : Traffic.TrafficResultItem :=
  ⟨none, some 85, some 75, some 65, some "http://x/y/shot.png"⟩

/-- A job payload with one successful result. -/
def okJobPayload : Traffic.JobData := ⟨"done", none, some ⟨some [okItem]⟩⟩

/-- A pool state holding pool 0, created at time 0, with nothing closed. -/
def stalePoolState : Pool.PoolState := ⟨some 0, 0, 1, []⟩

/-- All fields of a competition result except the score (used to compare
the two competition entry points on the empty input). -/
def dropScore (r : CompetitionResult) :
    ℕ × List (String × ℕ) × ℚ × ℚ × ℚ × String :=
  (r.total_competitors, r.category_breakdown, r.competition_density,
   r.competition_factor, r.category_factor, r.explanation)

/-! Helper lemmas. -/

theorem qsum_foldl (a : ℚ) (l : List ℚ) : l.foldl (fun x y => x + y) a = a + l.sum := by
  induction l generalizing a with
  | nil => simp [List.sum_nil]
  | cons x xs ih => simp [List.foldl_cons, List.sum_cons, ih]; ring

theorem qsum_eq_sum (l : List ℚ) : qsum l = l.sum := by
  simpa [qsum] using qsum_foldl 0 l

theorem qsum_append (a b : List ℚ) : qsum (a ++ b) = qsum a + qsum b := by
  simp [qsum_eq_sum, List.sum_append]

theorem roundTo_zero (k : ℕ) : roundTo k 0 = 0 := by
  norm_num [roundTo, pyRound]

/-! Claim theorems. -/

/-- C5: with zero competitor records both competition entry points return
their perfect-score sentinel deterministically — all breakdown factors 1.0,
empty category breakdown — with score 100.0 from the
scoring_algorithms entry point and 1.0 from the router-logic one. -/
theorem competition_zero_competitors (t : ℤ) :
    Competition.calculate_score_from_competition_data [] t =
      some ⟨100, 0, [], 0, 1, 1, "Perfect score: No competitors found in the area"⟩ ∧
    CompetitionLogic.calculate_score_from_competition_data [] t =
      some ⟨1, 0, [], 0, 1, 1, "Perfect score: No competitors found in the area"⟩ := by
  exact ⟨rfl, rfl⟩

/-- C1 (amended): on an empty input sequence, income returns score 0 with
all three distribution fields 0.0; both competition variants return their
perfect-score sentinel; complementary returns score 0.0; and demographics
is division-guarded only in its scoring_algorithms variant, which returns a
zero weighted age without raising, while the routers/demographics variant
raises `ZeroDivisionError` (`none`) on the empty list. -/
theorem calculators_empty_input (lvl : String) (t : ℤ) (log10 : ℚ → ℚ)
    (target_age : ℤ) (sex_preference : Option String) :
    Income.calculate_score_from_income_results [] lvl =
      ⟨0, lvl, 0, 0, ⟨0, 0, 0⟩⟩ ∧
    Competition.calculate_score_from_competition_data [] t =
      some ⟨100, 0, [], 0, 1, 1, "Perfect score: No competitors found in the area"⟩ ∧
    Complementary.calculate_score_from_complementary_data [] t =
      some ⟨0, 0, [], 0, 0, 0, 0, "Low score: No complementary businesses found in the area"⟩ ∧
    (Demographics.calculate_score_from_demographics_results log10 [] target_age
      sex_preference).weighted_median_age = 0 ∧
    DemographicsLogic.calculate_score_from_results log10 [] target_age
      sex_preference = none := by
  refine ⟨?_, rfl, rfl, ?_, ?_⟩
  · unfold Income.calculate_score_from_income_results
    rcases eq_or_ne lvl "low" with h | h
    · simp [h, Income.collectScores, Income.avgOrZero, roundTo_zero]
    · rcases eq_or_ne lvl "medium" with h2 | h2
      · simp [h, h2, Income.collectScores, Income.avgOrZero, roundTo_zero]
      · simp [h, h2, Income.collectScores, Income.avgOrZero, roundTo_zero]
  · unfold Demographics.calculate_score_from_demographics_results
    rcases eq_or_ne sex_preference (some "male") with h | h
    · simp [h, malePopSum, qsum, roundTo_zero]
    · rcases eq_or_ne sex_preference (some "female") with h2 | h2
      · simp [h, h2, femalePopSum, qsum, roundTo_zero]
      · simp [h, h2, totalPopSum, qsum, roundTo_zero]
  · unfold DemographicsLogic.calculate_score_from_results
    rcases eq_or_ne sex_preference (some "male") with h | h
    · simp [h, malePopSum, qsum, pydiv]
    · rcases eq_or_ne sex_preference (some "female") with h2 | h2
      · simp [h, h2, femalePopSum, qsum, pydiv]
      · simp [h, h2, totalPopSum, qsum, pydiv]

/-- C1 (counterexample): the routers/demographics calculator cited by the
claim does NOT return a no-data result on the empty input sequence — its
weighted-age division by the zero population sum raises
`ZeroDivisionError`, modelled as `none`. -/
theorem routers_demographics_empty_raises :
    DemographicsLogic.calculate_score_from_results (fun _ => 0) [] 30
      (some "male") = none := by
  rfl

theorem malePopSum_append_null (rows : List DemographicsRow) :
    malePopSum (rows ++ [nullRow]) = malePopSum rows := by
  simp [malePopSum, List.map_append, qsum_append, nullRow, qsum]

theorem maleAgeWeightedSum_append_null (rows : List DemographicsRow) :
    maleAgeWeightedSum (rows ++ [nullRow]) = maleAgeWeightedSum rows := by
  simp [maleAgeWeightedSum, List.map_append, qsum_append, nullRow, qsum]

theorem densitySum_append_null (rows : List DemographicsRow) :
    densitySum (rows ++ [nullRow]) = densitySum rows := by
  simp [densitySum, List.map_append, qsum_append, nullRow, qsum]

/-- C9 (amended): in the demographics sums a null numeric field contributes
0 while the row still counts toward the average-density denominator
(an appended all-null row leaves the weighted age unchanged but grows the
denominator to `len + 1`); in the income calculator a row whose score
columns are null is excluded from BOTH the numerator and the denominator of
every tier average (an appended all-null row changes neither the score nor
the distribution).  Nulls never raise: both embedded calculators are
total. -/
theorem null_field_handling (log10 : ℚ → ℚ) (rows : List DemographicsRow)
    (target_age : ℤ) (irows : List Income.IncomeRow) (lvl : String) :
    (Demographics.calculate_score_from_demographics_results log10 (rows ++ [nullRow])
        target_age (some "male")).weighted_median_age =
      (Demographics.calculate_score_from_demographics_results log10 rows
        target_age (some "male")).weighted_median_age ∧
    (Demographics.calculate_score_from_demographics_results log10 (rows ++ [nullRow])
        target_age (some "male")).avg_density =
      roundTo 2 (densitySum rows / ((rows.length : ℚ) + 1)) ∧
    (Income.calculate_score_from_income_results (irows ++ [nullIncomeRow]) lvl).score =
      (Income.calculate_score_from_income_results irows lvl).score ∧
    (Income.calculate_score_from_income_results (irows ++ [nullIncomeRow]) lvl).income_distribution =
      (Income.calculate_score_from_income_results irows lvl).income_distribution := by
  refine ⟨?_, ?_, ?_, ?_⟩
  · simp [Demographics.calculate_score_from_demographics_results,
      malePopSum_append_null, maleAgeWeightedSum_append_null]
  · simp [Demographics.calculate_score_from_demographics_results,
      densitySum_append_null]
  · simp [Income.calculate_score_from_income_results, Income.collectScores,
      List.filterMap_append, nullIncomeRow]
  · simp [Income.calculate_score_from_income_results, Income.collectScores,
      List.filterMap_append, nullIncomeRow]

/-- C9 (counterexample): for the income tier average, a row whose selected
score column is null does NOT contribute 0 while counting toward the
denominator: with rows `[low=10, low=null]` the code returns 10 (average
over the one non-null value), not `(10+0)/2 = 5` as the claim states. -/
theorem income_null_row_counterexample :
    (Income.calculate_score_from_income_results [lowTenRow, nullIncomeRow] "low").score = 10 ∧
    (Income.calculate_score_from_income_results [lowTenRow, nullIncomeRow] "low").score ≠
      roundTo 2 ((10 + 0) / 2) := by
  have hsc : (Income.calculate_score_from_income_results [lowTenRow, nullIncomeRow] "low").score = 10 := by
    simp [Income.calculate_score_from_income_results, Income.collectScores,
      Income.avgOrZero, lowTenRow, nullIncomeRow, qsum]
    norm_num [roundTo, pyRound]
  have hr : roundTo 2 ((10 + 0) / 2 : ℚ) = 5 := by
    norm_num [roundTo, pyRound]
  refine ⟨hsc, ?_⟩
  rw [hsc, hr]
  norm_num

/-- C4 (amended): with `sex_preference="male"` the scoring_algorithms
demographics calculator reports `Σ(Median_Age_Male·Male_Population) /
Σ(Male_Population)` rounded to 2 decimals, and 0 (without dividing) when
the male population sum is 0; the routers/demographics variant computes the
same rounded quotient when the sum is positive but raises
`ZeroDivisionError` (`none`) when it is 0. -/
theorem demographics_weighted_age_male (log10 : ℚ → ℚ)
    (rows : List DemographicsRow) (target_age : ℤ) :
    (0 < malePopSum rows →
      (Demographics.calculate_score_from_demographics_results log10 rows target_age
        (some "male")).weighted_median_age =
        roundTo 2 (maleAgeWeightedSum rows / malePopSum rows) ∧
      (DemographicsLogic.calculate_score_from_results log10 rows target_age
        (some "male")).map DemographicsResult.weighted_median_age =
        some (roundTo 2 (maleAgeWeightedSum rows / malePopSum rows))) ∧
    (malePopSum rows = 0 →
      (Demographics.calculate_score_from_demographics_results log10 rows target_age
        (some "male")).weighted_median_age = 0 ∧
      DemographicsLogic.calculate_score_from_results log10 rows target_age
        (some "male") = none) := by
  constructor
  · intro hS
    have hS0 : malePopSum rows ≠ 0 := ne_of_gt hS
    have hr : rows ≠ [] := by
      rintro rfl
      simp [malePopSum, qsum] at hS
    have hl : ((rows.length : ℚ)) ≠ 0 := by
      simpa [List.length_eq_zero] using hr
    constructor
    · simp [Demographics.calculate_score_from_demographics_results, hS]
    · unfold DemographicsLogic.calculate_score_from_results
      simp [pydiv, hS0, hl]
  · intro hS
    constructor
    · simp [Demographics.calculate_score_from_demographics_results, hS, roundTo_zero]
    · unfold DemographicsLogic.calculate_score_from_results
      simp [pydiv, hS]

theorem demographics_weighted_age_male_witness :
    0 < malePopSum [maleRow] ∧
    (Demographics.calculate_score_from_demographics_results (fun _ => 0) [maleRow] 25
      (some "male")).weighted_median_age =
      roundTo 2 (maleAgeWeightedSum [maleRow] / malePopSum [maleRow]) := by
  have hpos : 0 < malePopSum [maleRow] := by norm_num [malePopSum, qsum, maleRow]
  exact ⟨hpos, ((demographics_weighted_age_male (fun _ => 0) [maleRow] 25).1 hpos).1⟩

/-- C4 (counterexample): the routers/demographics variant cited by the
claim raises `ZeroDivisionError` (`none`) on a non-empty row set whose male
population sum is 0, instead of reporting weighted age 0. -/
theorem routers_demographics_zero_male_pop_raises :
    DemographicsLogic.calculate_score_from_results (fun _ => 0) [zeroMaleRow] 30
      (some "male") = none := by
  have h : malePopSum [zeroMaleRow] = 0 := by
    norm_num [malePopSum, qsum, zeroMaleRow]
  unfold DemographicsLogic.calculate_score_from_results
  simp [pydiv, h]

theorem bumpCategory_ne_nil (cat : String) (l : List (String × ℕ)) :
    bumpCategory cat l ≠ [] := by
  cases l with
  | nil => simp [bumpCategory]
  | cons p rest =>
    cases p with
    | mk c n =>
      simp only [bumpCategory]
      split <;> simp

theorem foldl_bump_ne_nil (data : List Business) :
    ∀ acc : List (String × ℕ), acc ≠ [] →
      data.foldl (fun acc b => bumpCategory (categoryOf b) acc) acc ≠ [] := by
  induction data with
  | nil => intro acc h; simpa using h
  | cons b l ih =>
    intro acc _
    simpa using ih (bumpCategory (categoryOf b) acc) (bumpCategory_ne_nil _ _)

theorem categoryCounts_ne_nil (data : List Business) (h : data ≠ []) :
    categoryCounts data ≠ [] := by
  cases data with
  | nil => exact absurd rfl h
  | cons b l =>
    unfold categoryCounts
    simpa using foldl_bump_ne_nil l (bumpCategory (categoryOf b) []) (bumpCategory_ne_nil _ _)

/-- On non-empty data with non-zero target, the returned competition score
field is the 4-decimal rounding of the weighted-factor formula. -/
theorem score_eq_rounded_formula (d : List Business) (n : ℤ) (hd : d ≠ [])
    (hn : 0 < n) :
    (Competition.calculate_score_from_competition_data d n).map
        CompetitionResult.score =
      some (roundTo 4 ((0.7 * max 0 (1 - ((d.length : ℚ) / 1000) / 10) +
        0.3 * max 0 (1 - ((d.length : ℚ) / ((categoryCounts d).length : ℚ)) /
          (n : ℚ))) * 100)) := by
  have hc : ¬ categoryCounts d = [] := categoryCounts_ne_nil d hd
  have hn0 : ((n : ℚ)) ≠ 0 := by
    exact_mod_cast ne_of_gt hn
  obtain ⟨b, l, rfl⟩ := List.exists_cons_of_ne_nil hd
  simp [Competition.calculate_score_from_competition_data, pydiv, hn0, hc]
  congr 1
  ring

/-- C3 (amended): for every non-empty competitor list and positive
`target_num_per_category`, the competition score equals the claim's formula
`(0.7·max(0, 1−(count/1000)/10) + 0.3·max(0, 1−avg/target))·100` — with
`avg` the count divided by the number of distinct categories — ROUNDED TO
4 DECIMAL PLACES (the rounding the code applies before returning); in
particular, for 10 competitors split across 2 categories with target 5 the
score is exactly 69.93, which the rounding leaves unchanged. -/
theorem competition_score_formula (data : List Business) (t : ℤ) :
    (data ≠ [] → 0 < t →
      (Competition.calculate_score_from_competition_data data t).map
          CompetitionResult.score =
        some (roundTo 4 ((0.7 * max 0 (1 - ((data.length : ℚ) / 1000) / 10) +
          0.3 * max 0 (1 - ((data.length : ℚ) / ((categoryCounts data).length : ℚ)) /
            (t : ℚ))) * 100))) ∧
    (Competition.calculate_score_from_competition_data goldenCompetitors 5).map
      CompetitionResult.score = some (6993 / 100) := by
  refine ⟨score_eq_rounded_formula data t, ?_⟩
  have hg : goldenCompetitors ≠ [] := by simp [goldenCompetitors]
  have h5 : (0 : ℤ) < 5 := by norm_num
  have hlen : (goldenCompetitors.length : ℚ) = 10 := by
    simp [goldenCompetitors]
  have hcat : categoryCounts goldenCompetitors = [("cafe", 5), ("bakery", 5)] := by
    simp [goldenCompetitors, categoryCounts, categoryOf, List.replicate, bumpCategory]
  rw [score_eq_rounded_formula goldenCompetitors 5 hg h5, hlen, hcat]
  norm_num [roundTo, pyRound, max_def]

/-- C3 (counterexample): the claim's formula without rounding does not
match the returned score everywhere: for one competitor in one category
with target 7 the code returns the 4-decimal rounding of
`95.70728571...`, which differs from the unrounded formula value. -/
theorem competition_score_not_unrounded :
    (Competition.calculate_score_from_competition_data soloCompetitor 7).map
        CompetitionResult.score ≠
      some ((0.7 * max 0 (1 - ((soloCompetitor.length : ℚ) / 1000) / 10) +
        0.3 * max 0 (1 - ((soloCompetitor.length : ℚ) /
          ((categoryCounts soloCompetitor).length : ℚ)) / ((7 : ℤ) : ℚ))) * 100) := by
  have hd : soloCompetitor ≠ [] := by simp [soloCompetitor]
  have h7 : (0 : ℤ) < 7 := by norm_num
  rw [score_eq_rounded_formula soloCompetitor 7 hd h7]
  have hlen : (soloCompetitor.length : ℚ) = 1 := by simp [soloCompetitor]
  have hcat : categoryCounts soloCompetitor = [("cafe", 1)] := by
    simp [soloCompetitor, categoryCounts, categoryOf, bumpCategory]
  rw [hlen, hcat]
  norm_num [roundTo, pyRound, max_def]

theorem competition_score_formula_witness :
    goldenCompetitors ≠ [] ∧ (0 : ℤ) < 5 ∧
    (Competition.calculate_score_from_competition_data goldenCompetitors 5).map
        CompetitionResult.score =
      some (roundTo 4 ((0.7 * max 0 (1 - ((goldenCompetitors.length : ℚ) / 1000) / 10) +
        0.3 * max 0 (1 - ((goldenCompetitors.length : ℚ) /
          ((categoryCounts goldenCompetitors).length : ℚ)) / ((5 : ℤ) : ℚ))) * 100)) :=
  ⟨by simp [goldenCompetitors], by norm_num,
   (competition_score_formula goldenCompetitors 5).1 (by simp [goldenCompetitors])
     (by norm_num)⟩

/-- C10: the two pure competition scorers return identical result mappings
(score, factors, breakdown, explanation) on every non-empty competitor
list with positive target, and disagree only on the empty list, where the
scoring_algorithms entry point scores 100.0, the router-logic one 1.0, and
every other field coincides. -/
theorem competition_variants_agree (data : List Business) (t : ℤ) :
    (data ≠ [] → 0 < t →
      Competition.calculate_score_from_competition_data data t =
        CompetitionLogic.calculate_score_from_competition_data data t) ∧
    (Competition.calculate_score_from_competition_data [] t).map
        CompetitionResult.score = some 100 ∧
    (CompetitionLogic.calculate_score_from_competition_data [] t).map
        CompetitionResult.score = some 1 ∧
    (Competition.calculate_score_from_competition_data [] t).map dropScore =
      (CompetitionLogic.calculate_score_from_competition_data [] t).map dropScore := by
  refine ⟨?_, rfl, rfl, rfl⟩
  intro hd _
  obtain ⟨b, l, rfl⟩ := List.exists_cons_of_ne_nil hd
  simp only [Competition.calculate_score_from_competition_data,
    CompetitionLogic.calculate_score_from_competition_data, List.length_cons,
    Nat.succ_ne_zero, if_false]

theorem competition_variants_agree_witness :
    soloCompetitor ≠ [] ∧ (0 : ℤ) < 5 ∧
    Competition.calculate_score_from_competition_data soloCompetitor 5 =
      CompetitionLogic.calculate_score_from_competition_data soloCompetitor 5 :=
  ⟨by simp [soloCompetitor], by norm_num,
   (competition_variants_agree soloCompetitor 5).1 (by simp [soloCompetitor])
     (by norm_num)⟩

theorem pollAux_run_done (service : ℕ → Traffic.JobData) (job_id : String)
    (maxA : ℕ) :
    ∀ (k attempt fuel : ℕ),
      (∀ i, attempt + 1 ≤ i → i ≤ attempt + k →
        (service i).status = "running" ∨ (service i).status = "pending") →
      (service (attempt + k + 1)).status = "done" →
      k + 1 ≤ fuel →
      Traffic.pollAux service job_id maxA fuel attempt =
        (Traffic.PollOutcome.done (service (attempt + k + 1)), k + 1) := by
  intro k
  induction k with
  | zero =>
    intro attempt fuel _ hdone hf
    cases fuel with
    | zero => exact absurd hf (by omega)
    | succ f =>
      have hd : (service (attempt + 1)).status = "done" := by simpa using hdone
      simp [Traffic.pollAux, hd]
  | succ k ih =>
    intro attempt fuel hrun hdone hf
    cases fuel with
    | zero => exact absurd hf (by omega)
    | succ f =>
      have h1 := hrun (attempt + 1) (by omega) (by omega)
      have hne1 : (service (attempt + 1)).status ≠ "done" := by
        rcases h1 with h | h <;> rw [h] <;> decide
      have hne2 : (service (attempt + 1)).status ≠ "failed" := by
        rcases h1 with h | h <;> rw [h] <;> decide
      have hne3 : (service (attempt + 1)).status ≠ "canceled" := by
        rcases h1 with h | h <;> rw [h] <;> decide
      have harith : attempt + 1 + k + 1 = attempt + (k + 1) + 1 := by omega
      have hdone2 : (service (attempt + 1 + k + 1)).status = "done" := by
        rw [harith]; exact hdone
      have hrec := ih (attempt + 1) f
        (fun i hi1 hi2 => hrun i (by omega) (by omega)) hdone2 (by omega)
      simp [Traffic.pollAux, hne1, hne2, hne3, hrec, harith]

theorem pollAux_pending (service : ℕ → Traffic.JobData) (job_id : String)
    (maxA : ℕ) (hp : ∀ i, (service i).status = "pending") :
    ∀ fuel attempt,
      Traffic.pollAux service job_id maxA fuel attempt =
        (Traffic.PollOutcome.timedOut job_id maxA, fuel) := by
  intro fuel
  induction fuel with
  | zero => intro attempt; simp [Traffic.pollAux]
  | succ f ih =>
    intro attempt
    have h := hp (attempt + 1)
    simp [Traffic.pollAux, h, ih (attempt + 1)]

/-- C2: for every N, if the job-status endpoint reports `"running"` (or
`"pending"`) for the first N polls and `"done"` on the next, the polling
loop issues exactly N+1 status requests (N ≤ 59, i.e. N+1 ≤ 60) and
returns the final job payload; if the status never leaves `"pending"`, it
issues exactly 60 requests and fails with the timeout error naming the job
id and the attempt count. -/
theorem poll_job_status_spec (service : ℕ → Traffic.JobData) (job_id : String)
    (N : ℕ) :
    ((∀ i, 1 ≤ i → i ≤ N →
        (service i).status = "running" ∨ (service i).status = "pending") →
      (service (N + 1)).status = "done" → N + 1 ≤ 60 →
      Traffic.poll_job_status service job_id 60 =
        (Traffic.PollOutcome.done (service (N + 1)), N + 1)) ∧
    ((∀ i, (service i).status = "pending") →
      Traffic.poll_job_status service job_id 60 =
        (Traffic.PollOutcome.timedOut job_id 60, 60)) := by
  constructor
  · intro hrun hdone hle
    have h := pollAux_run_done service job_id 60 N 0 60
      (fun i hi1 hi2 => hrun i (by omega) (by omega))
      (by simpa using hdone) hle
    simpa [Traffic.poll_job_status] using h
  · intro hp
    simpa [Traffic.poll_job_status] using
      pollAux_pending service job_id 60 hp 60 0

theorem poll_job_status_spec_witness :
    Traffic.poll_job_status svcRunThenDone "job-1" 60 =
      (Traffic.PollOutcome.done doneJob, 3) ∧
    Traffic.poll_job_status svcAlwaysPending "job-1" 60 =
      (Traffic.PollOutcome.timedOut "job-1" 60, 60) := by
  constructor
  · have h1 : ∀ i, 1 ≤ i → i ≤ 2 →
        (svcRunThenDone i).status = "running" ∨
        (svcRunThenDone i).status = "pending" := by
      intro i hi1 hi2
      interval_cases i
      · left; rfl
      · left; rfl
    have h2 : (svcRunThenDone 3).status = "done" := rfl
    have h := (poll_job_status_spec svcRunThenDone "job-1" 2).1 h1 h2 (by omega)
    simpa [svcRunThenDone] using h
  · exact (poll_job_status_spec svcAlwaysPending "job-1" 60).2 (fun i => rfl)

/-- C6: the traffic result formatter returns normally on every job payload
(the embedded function is total): an absent or empty nested `results` list
yields the zero-score no-data result; a first element carrying a (truthy)
`error` field yields a zero-score result with an explanatory message; and
otherwise the first element's scores pass through unmodified. -/
theorem format_traffic_results_spec (now : String) (payload : Traffic.JobData)
    (sd day tm : String) :
    (Traffic.resultsData payload = [] →
      Traffic.format_traffic_results now payload sd day tm =
        ⟨0, 0, 0, "", now, "No traffic analysis data available"⟩) ∧
    (∀ item rest, Traffic.resultsData payload = item :: rest →
      (item.error.getD "" ≠ "" →
        Traffic.format_traffic_results now payload sd day tm =
          ⟨0, 0, 0, "", now, "Traffic analysis failed: " ++ item.error.getD ""⟩) ∧
      (item.error.getD "" = "" →
        (Traffic.format_traffic_results now payload sd day tm).score =
          item.score.getD 0 ∧
        (Traffic.format_traffic_results now payload sd day tm).storefront_score =
          item.storefront_score.getD 0 ∧
        (Traffic.format_traffic_results now payload sd day tm).area_score =
          item.area_score.getD 0)) := by
  constructor
  · intro h
    simp only [Traffic.format_traffic_results]
    rw [h]
  · intro item rest h
    constructor
    · intro he
      simp only [Traffic.format_traffic_results]
      rw [h]
      simp [he]
    · intro he
      simp only [Traffic.format_traffic_results]
      rw [h]
      simp [he]

theorem format_traffic_results_witness :
    Traffic.format_traffic_results "d" errorJobPayload "north" "mon" "10:00" =
      ⟨0, 0, 0, "", "d", "Traffic analysis failed: boom"⟩ ∧
    (Traffic.format_traffic_results "d" okJobPayload "north" "mon" "10:00").score = 85 := by
  constructor
  · have h := ((format_traffic_results_spec "d" errorJobPayload "north" "mon"
      "10:00").2 errorItem [] rfl).1 (by simp [errorItem])
    simpa [errorItem] using h
  · have h := ((format_traffic_results_spec "d" okJobPayload "north" "mon"
      "10:00").2 okItem [] rfl).2 (by simp [okItem])
    simpa [okItem] using h.1

/-- C7: in the dispatch pipeline's domain-function step, a raised
`HTTPException` propagates unchanged, any other exception is re-surfaced as
a single 500 internal error carrying the original message, and a normal
return raises nothing. -/
theorem request_handling_error_normalization {ρ α : Type} (req : Option ρ)
    (iv : Option (ρ → Option (List String)))
    (oc : Option (Dispatch.Output α → Dispatch.Output α)) (w : Bool) (u : String)
    (f : Option ρ → Except Dispatch.PyExc α)
    (hval : Dispatch.validationStep req iv = Except.ok ()) :
    (∀ s d, f req = Except.error (Dispatch.PyExc.httpException s d) →
      Dispatch.request_handling req iv (some f) oc w u =
        Except.error (Dispatch.PyExc.httpException s d)) ∧
    (∀ m, f req = Except.error (Dispatch.PyExc.otherExc m) →
      Dispatch.request_handling req iv (some f) oc w u =
        Except.error (Dispatch.PyExc.httpException 500
          (Dispatch.HttpDetail.text ("An unexpected error occurred: " ++ m)))) ∧
    (∀ a, f req = Except.ok a →
      ∃ out, Dispatch.request_handling req iv (some f) oc w u = Except.ok out) := by
  refine ⟨?_, ?_, ?_⟩
  · intro s d h
    unfold Dispatch.request_handling Dispatch.invokeStep
    rw [hval]
    simp [h]
  · intro m h
    unfold Dispatch.request_handling Dispatch.invokeStep
    rw [hval]
    simp [h]
  · intro a h
    unfold Dispatch.request_handling Dispatch.invokeStep
    rw [hval]
    simp [h]

theorem request_handling_error_normalization_witness :
    Dispatch.request_handling none none
        (some (fun _ : Option Unit =>
          (Except.error (Dispatch.PyExc.otherExc "boom") : Except Dispatch.PyExc Unit)))
        none false "u" =
      Except.error (Dispatch.PyExc.httpException 500
        (Dispatch.HttpDetail.text ("An unexpected error occurred: " ++ "boom"))) :=
  (request_handling_error_normalization none none none false "u"
    (fun _ => Except.error (Dispatch.PyExc.otherExc "boom")) rfl).2.1 "boom" rfl

/-- C8: acquiring the pool when none exists creates it lazily; acquiring
when the pool is older than `refresh_interval` performs exactly one
replacement whose event order is create-new-pool, swap (done by
`create_pool` itself), then close-old-pool, and every intermediate state
still references a live (never a closed) pool; a fresh-enough pool is
returned untouched. -/
theorem get_pool_spec (s : Pool.PoolState) (now : ℚ) :
    (s.pool = none →
      Pool.get_pool s now =
        (⟨some s.next_pool_id, now, s.next_pool_id + 1, s.closed_pools⟩,
         [Pool.PoolEvent.created s.next_pool_id],
         [⟨some s.next_pool_id, now, s.next_pool_id + 1, s.closed_pools⟩])) ∧
    (∀ p, s.pool = some p → Pool.PoolWF s →
      Pool.refresh_interval < now - s.last_refresh_time →
      Pool.get_pool s now =
        (⟨some s.next_pool_id, now, s.next_pool_id + 1, p :: s.closed_pools⟩,
         [Pool.PoolEvent.created s.next_pool_id, Pool.PoolEvent.closedPool p],
         [⟨some s.next_pool_id, now, s.next_pool_id + 1, s.closed_pools⟩,
          ⟨some s.next_pool_id, now, s.next_pool_id + 1, p :: s.closed_pools⟩]) ∧
      (∀ st ∈ s :: (Pool.get_pool s now).2.2, Pool.livePool st)) ∧
    (∀ p, s.pool = some p →
      ¬ Pool.refresh_interval < now - s.last_refresh_time →
      Pool.get_pool s now = (s, [], [])) := by
  refine ⟨?_, ?_, ?_⟩
  · intro h
    simp [Pool.get_pool, Pool.create_pool, h]
  · intro p hp hwf ht
    have hnc : s.next_pool_id ∉ s.closed_pools := by
      intro hmem
      exact absurd (hwf.1 _ hmem) (lt_irrefl _)
    have hplt : p < s.next_pool_id := (hwf.2 p hp).1
    constructor
    · simp [Pool.get_pool, hp, ht, Pool.refresh_pool, Pool.create_pool,
        Pool.closePool]
    · intro st hst
      simp [Pool.get_pool, hp, ht, Pool.refresh_pool, Pool.create_pool,
        Pool.closePool] at hst
      rcases hst with rfl | rfl | rfl
      · exact ⟨p, hp, (hwf.2 p hp).2⟩
      · exact ⟨s.next_pool_id, rfl, hnc⟩
      · refine ⟨s.next_pool_id, rfl, ?_⟩
        simp only [List.mem_cons, not_or]
        exact ⟨by omega, hnc⟩
  · intro p hp ht
    simp [Pool.get_pool, hp, ht]

theorem get_pool_spec_witness :
    Pool.get_pool stalePoolState 4000 =
      (⟨some 1, 4000, 2, [0]⟩,
       [Pool.PoolEvent.created 1, Pool.PoolEvent.closedPool 0],
       [⟨some 1, 4000, 2, []⟩, ⟨some 1, 4000, 2, [0]⟩]) ∧
    Pool.livePool ⟨some 1, 4000, 2, [0]⟩ := by
  have hwf : Pool.PoolWF stalePoolState := by
    constructor
    · intro c hc
      simp [stalePoolState] at hc
    · intro p hp
      simp only [stalePoolState] at hp ⊢
      cases hp
      exact ⟨by omega, by simp⟩
  have ht : Pool.refresh_interval < (4000 : ℚ) - stalePoolState.last_refresh_time := by
    norm_num [Pool.refresh_interval, stalePoolState]
  have h := (get_pool_spec stalePoolState 4000).2.1 0 rfl hwf ht
  refine ⟨?_, ⟨1, rfl, by simp⟩⟩
  simpa [stalePoolState] using h.1
